import Mathlib

/-!
Shallow embedding of the DiseaseDetectionPrototype capture-and-analysis
pipeline: the FaceScan component (camera capture, BlazeFace detection,
mock health classification) and the VoiceAnalysis component (microphone
recording, audio-level monitor loop, mock voice classification).

Random draws from the host Math.random are modelled as rational
parameters in [0,1).  Math.round on a nonnegative number is floor of
x + 1/2.  React state is modelled as explicit state records; the
setState calls of a handler become a state-transition function, and
the asynchronous body of analyzeVoice is modelled as the list of
observable events it performs, in order.
-/

/-- Math.round for nonnegative inputs: floor of x + 1/2. -/
def jsRound (q : ℚ) : ℤ := ⌊q + 1/2⌋

inductive HealthStatus
  | healthy
  | needsConsultation
  | highRisk
deriving DecidableEq

/-- One BlazeFace prediction: corner coordinates and an optional
probability scalar (absent models the undefined field). -/
structure Prediction where
  topLeft : ℚ × ℚ
  bottomRight : ℚ × ℚ
  probability : Option ℚ
deriving DecidableEq

/-- A bounding box drawn on the canvas: strokeRect start and size. -/
structure Rect where
  x : ℚ
  y : ℚ
  w : ℚ
  h : ℚ
deriving DecidableEq

/-- The box drawn for one prediction: start = topLeft, size = bottomRight - topLeft. -/
def boxOf (p : Prediction) : Rect :=
  { x := p.topLeft.1, y := p.topLeft.2,
    w := p.bottomRight.1 - p.topLeft.1, h := p.bottomRight.2 - p.topLeft.2 }

namespace FaceScan

structure AnalysisResult where
  status : HealthStatus
  confidence : ℤ
  details : List String
  recommendations : List String
deriving DecidableEq

def healthyDetails : List String :=
  ["Normal facial symmetry detected",
   "Skin tone analysis: Within normal range",
   "Eye analysis: No visible abnormalities",
   "Facial temperature estimation: Normal"]

def healthyRecommendations : List String :=
  ["Continue maintaining good health habits",
   "Regular health checkups recommended",
   "Stay hydrated and get adequate sleep"]

def consultationDetails : List String :=
  ["Minor facial asymmetry detected",
   "Skin tone variation observed",
   "Eye fatigue indicators present",
   "Possible signs of stress or fatigue"]

def consultationRecommendations : List String :=
  ["Schedule a consultation with a healthcare provider",
   "Monitor for any changes in symptoms",
   "Ensure adequate rest and stress management",
   "Consider a comprehensive health screening"]

def highRiskDetails : List String :=
  ["Significant facial irregularities detected",
   "Abnormal skin tone patterns observed",
   "Multiple risk indicators present",
   "Immediate medical attention may be needed"]

def highRiskRecommendations : List String :=
  ["Consult a healthcare professional immediately",
   "Schedule comprehensive medical examination",
   "Document any recent symptoms or changes",
   "Do not delay seeking medical advice"]

/-- Embedding of `predictions[0]?.probability || 0.95`: the JavaScript
or-default yields 0.95 when the list is empty, when the probability
field is absent, and when it is the falsy number 0. -/
def detectorConfidence (predictions : List Prediction) : ℚ :=
  match predictions.head? with
  | none => 19/20
  | some p =>
    match p.probability with
    | none => 19/20
    | some q => if q = 0 then 19/20 else q

/-- Core of analyzeHealth: the classification produced from the status
draw randomFactor and the confidence draw s (each a Math.random value). -/
def analyzeHealthResult (randomFactor s : ℚ) : AnalysisResult :=
  if randomFactor > 7/10 then
    { status := .healthy, confidence := jsRound (75 + s * 20),
      details := healthyDetails, recommendations := healthyRecommendations }
  else if randomFactor > 7/20 then
    { status := .needsConsultation, confidence := jsRound (60 + s * 15),
      details := consultationDetails, recommendations := consultationRecommendations }
  else
    { status := .highRisk, confidence := jsRound (55 + s * 10),
      details := highRiskDetails, recommendations := highRiskRecommendations }

/-- Lookup table: the detail catalog belonging to a status in face mode. -/
def detailsFor : HealthStatus → List String
  | .healthy => healthyDetails
  | .needsConsultation => consultationDetails
  | .highRisk => highRiskDetails

/-- Lookup table: the recommendation catalog belonging to a status in face mode. -/
def recommendationsFor : HealthStatus → List String
  | .healthy => healthyRecommendations
  | .needsConsultation => consultationRecommendations
  | .highRisk => highRiskRecommendations

/-- Observable state of the FaceScan component: the camera session
(stream handle, video srcObject, active flag), the analysis flags and
outputs, and the boxes drawn on the canvas. -/
structure FaceState where
  isCameraActive : Bool
  streamActive : Bool
  videoSrc : Bool
  isAnalyzing : Bool
  analysisResult : Option AnalysisResult
  error : Option String
  drawnBoxes : List Rect
deriving DecidableEq

def initialState : FaceState :=
  { isCameraActive := false, streamActive := false, videoSrc := false,
    isAnalyzing := false, analysisResult := none, error := none, drawnBoxes := [] }

/-- stopCamera: stop and drop the stream tracks, null the video
srcObject, mark the camera inactive.  Each write is idempotent. -/
def stopCamera (st : FaceState) : FaceState :=
  { st with streamActive := false, videoSrc := false, isCameraActive := false }

structure CaptureOutcome where
  state : FaceState
  analyzeInvoked : Bool
deriving DecidableEq

/-- captureAndAnalyze.  hasVideo, hasCanvas, hasModel, hasCtx model the
nullable refs checked at entry; detect models the awaited
estimateFaces call, none meaning it threw.  randomFactor and s are the
random draws consumed by analyzeHealth when it is reached. -/
def captureAndAnalyze (hasVideo hasCanvas hasModel hasCtx : Bool)
    (detect : Option (List Prediction)) (randomFactor s : ℚ)
    (st : FaceState) : CaptureOutcome :=
  if !hasVideo || !hasCanvas || !hasModel then { state := st, analyzeInvoked := false }
  else
    let st1 := { st with isAnalyzing := true, error := none }
    if !hasCtx then { state := st1, analyzeInvoked := false }
    else
      match detect with
      | none =>
        let stE := { st1 with error := some "Analysis failed. Please try again.", isAnalyzing := false }
        { state := stE, analyzeInvoked := false }
      | some predictions =>
        if predictions.isEmpty then
          { state := { st1 with
              error := some "No face detected. Please ensure your face is clearly visible.",
              isAnalyzing := false },
            analyzeInvoked := false }
        else
          let st2 := { st1 with drawnBoxes := st1.drawnBoxes ++ predictions.map boxOf }
          let st3 := { st2 with analysisResult := some (analyzeHealthResult randomFactor s) }
          let st4 := stopCamera st3
          { state := { st4 with isAnalyzing := false }, analyzeInvoked := true }

/-- handleFileUpload: the upload entry point runs the same detection,
box drawing and analyzeHealth path but never touches the camera. -/
def handleFileUpload (hasFile hasCanvas hasModel : Bool)
    (detect : Option (List Prediction)) (randomFactor s : ℚ)
    (st : FaceState) : CaptureOutcome :=
  if !hasFile || !hasCanvas || !hasModel then { state := st, analyzeInvoked := false }
  else
    let st1 := { st with isAnalyzing := true, error := none }
    match detect with
    | none =>
      let stE := { st1 with error := some "Analysis failed. Please try again.", isAnalyzing := false }
      { state := stE, analyzeInvoked := false }
    | some predictions =>
      if predictions.isEmpty then
        { state := { st1 with
            error := some "No face detected in the image. Please upload a clear face photo.",
            isAnalyzing := false },
          analyzeInvoked := false }
      else
        let st2 := { st1 with drawnBoxes := st1.drawnBoxes ++ predictions.map boxOf }
        let st3 := { st2 with analysisResult := some (analyzeHealthResult randomFactor s) }
        { state := { st3 with isAnalyzing := false }, analyzeInvoked := true }

/-- resetAnalysis: clear the result, the error, and (when the canvas
ref is mounted) the drawn canvas content. -/
def resetAnalysis (hasCanvas : Bool) (st : FaceState) : FaceState :=
  let st1 := { st with analysisResult := none, error := none }
  if hasCanvas then { st1 with drawnBoxes := [] } else st1

end FaceScan

namespace VoiceAnalysis

structure VoiceMetrics where
  pitch : ℤ
  volume : ℤ
  duration : ℕ
  clarity : ℤ
deriving DecidableEq

structure VoiceAnalysisResult where
  status : HealthStatus
  confidence : ℤ
  metrics : VoiceMetrics
  details : List String
  recommendations : List String
deriving DecidableEq

def healthyDetails : List String :=
  ["Voice pitch within normal range",
   "Clear pronunciation detected",
   "No irregular breathing patterns",
   "Normal speech tempo",
   "No signs of voice strain or hoarseness"]

def healthyRecommendations : List String :=
  ["Voice characteristics appear normal",
   "Continue maintaining good vocal health",
   "Stay hydrated and avoid excessive strain",
   "Regular health checkups recommended"]

def consultationDetails : List String :=
  ["Minor voice irregularities detected",
   "Slight hoarseness or strain observed",
   "Irregular breathing pattern noticed",
   "Voice pitch variation detected",
   "Possible signs of fatigue or stress"]

def consultationRecommendations : List String :=
  ["Schedule a consultation with a healthcare provider",
   "Consider ENT specialist evaluation",
   "Monitor for persistent voice changes",
   "Rest your voice and stay hydrated",
   "Avoid shouting or excessive talking"]

def highRiskDetails : List String :=
  ["Significant voice abnormalities detected",
   "Severe hoarseness or strain present",
   "Irregular breathing patterns observed",
   "Multiple risk indicators identified",
   "Possible respiratory concerns"]

def highRiskRecommendations : List String :=
  ["Consult a healthcare professional immediately",
   "Schedule ENT and respiratory evaluation",
   "Document any additional symptoms",
   "Avoid straining your voice",
   "Seek medical attention without delay"]

/-- Lookup table: the detail catalog belonging to a status in voice mode. -/
def detailsFor : HealthStatus → List String
  | .healthy => healthyDetails
  | .needsConsultation => consultationDetails
  | .highRisk => highRiskDetails

/-- Lookup table: the recommendation catalog belonging to a status in voice mode. -/
def recommendationsFor : HealthStatus → List String
  | .healthy => healthyRecommendations
  | .needsConsultation => consultationRecommendations
  | .highRisk => highRiskRecommendations

/-- The metrics block of a voice result: mockPitch = 100 + p*100,
mockVolume = 50 + v*40, mockClarity = 70 + c*25 (p, v, c the three
Math.random draws), each Math.round-ed, and the recorded duration. -/
def mkMetrics (recordingTime : ℕ) (p v c : ℚ) : VoiceMetrics :=
  { pitch := jsRound (100 + p * 100), volume := jsRound (50 + v * 40),
    duration := recordingTime, clarity := jsRound (70 + c * 25) }

/-- The VoiceAnalysisResult built by analyzeVoice once the duration
check has passed: same classification bands as face mode, with the
voice catalogs and the metrics block. -/
def mkResult (recordingTime : ℕ) (p v c randomFactor s : ℚ) : VoiceAnalysisResult :=
  if randomFactor > 7/10 then
    { status := .healthy, confidence := jsRound (75 + s * 20),
      metrics := mkMetrics recordingTime p v c,
      details := healthyDetails, recommendations := healthyRecommendations }
  else if randomFactor > 7/20 then
    { status := .needsConsultation, confidence := jsRound (60 + s * 15),
      metrics := mkMetrics recordingTime p v c,
      details := consultationDetails, recommendations := consultationRecommendations }
  else
    { status := .highRisk, confidence := jsRound (55 + s * 10),
      metrics := mkMetrics recordingTime p v c,
      details := highRiskDetails, recommendations := highRiskRecommendations }

/-- Observable events performed by the asynchronous analyzeVoice body,
in program order. -/
inductive VoiceEvent
  | setAnalyzing (b : Bool)
  | clearError
  | delay (ms : ℕ)
  | setError (msg : String)
  | publish (res : VoiceAnalysisResult)
  | setRecordingTime (t : ℕ)
deriving DecidableEq

/-- analyzeVoice as its ordered event trace: mark analyzing, clear the
error, await the fixed 2000 ms timeout, then either fail the duration
check (error, stop analyzing, reset the timer) or publish the result
(then stop analyzing and reset the timer). -/
def analyzeVoice (recordingTime : ℕ) (p v c randomFactor s : ℚ) : List VoiceEvent :=
  [VoiceEvent.setAnalyzing true, VoiceEvent.clearError, VoiceEvent.delay 2000] ++
  (if recordingTime < 3 then
    [VoiceEvent.setError "Recording too short. Please speak for at least 3 seconds.",
     VoiceEvent.setAnalyzing false, VoiceEvent.setRecordingTime 0]
  else
    [VoiceEvent.publish (mkResult recordingTime p v c randomFactor s),
     VoiceEvent.setAnalyzing false, VoiceEvent.setRecordingTime 0])

/-- The results published in an event trace. -/
def publishedResults (evts : List VoiceEvent) : List VoiceAnalysisResult :=
  evts.filterMap fun e =>
    match e with
    | VoiceEvent.publish res => some res
    | _ => none

/-- Observable state of the VoiceAnalysis component: recorder and audio
graph handles, the recording flag, the two transient live values
(elapsed seconds and audio level), and the analysis outputs. -/
structure VoiceState where
  isRecording : Bool
  mediaRecorderPresent : Bool
  analyserPresent : Bool
  audioContextPresent : Bool
  timerActive : Bool
  animationFrameActive : Bool
  recordingTime : ℕ
  audioLevel : ℚ
  isAnalyzing : Bool
  analysisResult : Option VoiceAnalysisResult
  error : Option String
deriving DecidableEq

def initialState : VoiceState :=
  { isRecording := false, mediaRecorderPresent := false, analyserPresent := false,
    audioContextPresent := false, timerActive := false, animationFrameActive := false,
    recordingTime := 0, audioLevel := 0, isAnalyzing := false,
    analysisResult := none, error := none }

/-- stopRecording: guarded on a live recorder and an active recording;
stops the recorder, clears the one-second timer, cancels the pending
animation frame and closes the audio context.  Outside the guard it is
a no-op. -/
def stopRecording (st : VoiceState) : VoiceState :=
  if st.mediaRecorderPresent && st.isRecording then
    { st with
      isRecording := false,
      timerActive := false,
      animationFrameActive := false,
      audioContextPresent := false }
  else st

/-- One tick of the updateLevel loop inside monitorAudioLevel: bail out
(without rescheduling) unless the analyser is present and recording is
active; otherwise read the frequency-domain byte buffer, reduce it to
its mean, map the mean linearly onto [0,100] capped by Math.min, publish
it as the audio level, and reschedule via requestAnimationFrame.  The
returned Bool is whether the next frame was scheduled. -/
def updateLevel (frequencyData : List ℕ) (st : VoiceState) : VoiceState × Bool :=
  if st.analyserPresent && st.isRecording then
    let average : ℚ := (frequencyData.sum : ℚ) / frequencyData.length
    ({ st with audioLevel := min 100 (average / 255 * 100), animationFrameActive := true }, true)
  else (st, false)

/-- Run of the monitor loop over a finite schedule of per-frame buffer
snapshots, collecting the audio levels it publishes; the loop stops as
soon as a tick declines to reschedule. -/
def monitorRun (frames : List (List ℕ)) (st : VoiceState) : VoiceState × List ℚ :=
  match frames with
  | [] => (st, [])
  | f :: fs =>
    let step := updateLevel f st
    if step.2 then
      let rest := monitorRun fs step.1
      (rest.1, step.1.audioLevel :: rest.2)
    else (step.1, [])

/-- The useEffect cleanup run at component teardown: stopRecording,
then unconditionally cancel any pending animation frame and timer. -/
def teardown (st : VoiceState) : VoiceState :=
  let st1 := stopRecording st
  { st1 with animationFrameActive := false, timerActive := false }

/-- resetAnalysis: clear the result, the error, the elapsed recording
time and the live audio level. -/
def resetAnalysis (st : VoiceState) : VoiceState :=
  { st with analysisResult := none, error := none, recordingTime := 0, audioLevel := 0 }

end VoiceAnalysis

/-- Floor bound lemma backing every confidence and metric range:
if lo <= x < hi with integer bounds then jsRound x lies in [lo, hi]. -/
theorem jsRound_bounds (lo hi : ℤ) (x : ℚ) (hlo : (lo : ℚ) ≤ x) (hhi : x < (hi : ℚ)) :
    lo ≤ jsRound x ∧ jsRound x ≤ hi := by
  unfold jsRound
  constructor
  · exact Int.le_floor.mpr (by linarith)
  · have h : ⌊x + 1/2⌋ < hi + 1 := Int.floor_lt.mpr (by push_cast; linarith)
    omega

theorem conf_healthy_mem (s : ℚ) (h0 : 0 ≤ s) (h1 : s < 1) :
    75 ≤ jsRound (75 + s * 20) ∧ jsRound (75 + s * 20) ≤ 95 :=
  jsRound_bounds 75 95 _ (by push_cast; linarith) (by push_cast; linarith)

theorem conf_consult_mem (s : ℚ) (h0 : 0 ≤ s) (h1 : s < 1) :
    60 ≤ jsRound (60 + s * 15) ∧ jsRound (60 + s * 15) ≤ 75 :=
  jsRound_bounds 60 75 _ (by push_cast; linarith) (by push_cast; linarith)

theorem conf_risk_mem (s : ℚ) (h0 : 0 ≤ s) (h1 : s < 1) :
    55 ≤ jsRound (55 + s * 10) ∧ jsRound (55 + s * 10) ≤ 65 :=
  jsRound_bounds 55 65 _ (by push_cast; linarith) (by push_cast; linarith)

theorem pitch_mem (p : ℚ) (h0 : 0 ≤ p) (h1 : p < 1) :
    100 ≤ jsRound (100 + p * 100) ∧ jsRound (100 + p * 100) ≤ 200 :=
  jsRound_bounds 100 200 _ (by push_cast; linarith) (by push_cast; linarith)

theorem volume_mem (v : ℚ) (h0 : 0 ≤ v) (h1 : v < 1) :
    50 ≤ jsRound (50 + v * 40) ∧ jsRound (50 + v * 40) ≤ 90 :=
  jsRound_bounds 50 90 _ (by push_cast; linarith) (by push_cast; linarith)

theorem clarity_mem (c : ℚ) (h0 : 0 ≤ c) (h1 : c < 1) :
    70 ≤ jsRound (70 + c * 25) ∧ jsRound (70 + c * 25) ≤ 95 :=
  jsRound_bounds 70 95 _ (by push_cast; linarith) (by push_cast; linarith)

theorem analyzeHealthResult_healthy {r : ℚ} (s : ℚ) (hr : 7/10 < r) :
    FaceScan.analyzeHealthResult r s =
      { status := HealthStatus.healthy,
        confidence := jsRound (75 + s * 20),
        details := FaceScan.healthyDetails,
        recommendations := FaceScan.healthyRecommendations } := by
  unfold FaceScan.analyzeHealthResult
  rw [if_pos hr]

theorem analyzeHealthResult_consult {r : ℚ} (s : ℚ) (hr1 : r ≤ 7/10) (hr2 : 7/20 < r) :
    FaceScan.analyzeHealthResult r s =
      { status := HealthStatus.needsConsultation,
        confidence := jsRound (60 + s * 15),
        details := FaceScan.consultationDetails,
        recommendations := FaceScan.consultationRecommendations } := by
  unfold FaceScan.analyzeHealthResult
  rw [if_neg (not_lt.mpr hr1), if_pos hr2]

theorem analyzeHealthResult_risk {r : ℚ} (s : ℚ) (hr : r ≤ 7/20) :
    FaceScan.analyzeHealthResult r s =
      { status := HealthStatus.highRisk,
        confidence := jsRound (55 + s * 10),
        details := FaceScan.highRiskDetails,
        recommendations := FaceScan.highRiskRecommendations } := by
  unfold FaceScan.analyzeHealthResult
  rw [if_neg (not_lt.mpr (by linarith)), if_neg (not_lt.mpr hr)]

theorem mkResult_healthy (rt : ℕ) (p v c : ℚ) {r : ℚ} (s : ℚ) (hr : 7/10 < r) :
    VoiceAnalysis.mkResult rt p v c r s =
      { status := HealthStatus.healthy,
        confidence := jsRound (75 + s * 20),
        metrics := VoiceAnalysis.mkMetrics rt p v c,
        details := VoiceAnalysis.healthyDetails,
        recommendations := VoiceAnalysis.healthyRecommendations } := by
  unfold VoiceAnalysis.mkResult
  rw [if_pos hr]

theorem mkResult_consult (rt : ℕ) (p v c : ℚ) {r : ℚ} (s : ℚ) (hr1 : r ≤ 7/10) (hr2 : 7/20 < r) :
    VoiceAnalysis.mkResult rt p v c r s =
      { status := HealthStatus.needsConsultation,
        confidence := jsRound (60 + s * 15),
        metrics := VoiceAnalysis.mkMetrics rt p v c,
        details := VoiceAnalysis.consultationDetails,
        recommendations := VoiceAnalysis.consultationRecommendations } := by
  unfold VoiceAnalysis.mkResult
  rw [if_neg (not_lt.mpr hr1), if_pos hr2]

theorem mkResult_risk (rt : ℕ) (p v c : ℚ) {r : ℚ} (s : ℚ) (hr : r ≤ 7/20) :
    VoiceAnalysis.mkResult rt p v c r s =
      { status := HealthStatus.highRisk,
        confidence := jsRound (55 + s * 10),
        metrics := VoiceAnalysis.mkMetrics rt p v c,
        details := VoiceAnalysis.highRiskDetails,
        recommendations := VoiceAnalysis.highRiskRecommendations } := by
  unfold VoiceAnalysis.mkResult
  rw [if_neg (not_lt.mpr (by linarith)), if_neg (not_lt.mpr hr)]

theorem mkResult_metrics (rt : ℕ) (p v c r s : ℚ) :
    (VoiceAnalysis.mkResult rt p v c r s).metrics = VoiceAnalysis.mkMetrics rt p v c := by
  unfold VoiceAnalysis.mkResult
  split_ifs <;> rfl

/-- Claim C1: with r the status draw and s the confidence draw, both
modes classify r greater than 0.70 as healthy with rounded confidence
in [75,95], r in (0.35, 0.70] as needs-consultation with confidence in
[60,75], and r at most 0.35 as high-risk with confidence in [55,65];
in particular r = 0.70 yields needs-consultation and r = 0.35 yields
high-risk, in both modes. -/
theorem classifier_bands (r s : ℚ) (rt : ℕ) (p v c : ℚ) (hs0 : 0 ≤ s) (hs1 : s < 1) :
    (7/10 < r →
      (FaceScan.analyzeHealthResult r s).status = HealthStatus.healthy ∧
      (VoiceAnalysis.mkResult rt p v c r s).status = HealthStatus.healthy ∧
      75 ≤ (FaceScan.analyzeHealthResult r s).confidence ∧
      (FaceScan.analyzeHealthResult r s).confidence ≤ 95 ∧
      75 ≤ (VoiceAnalysis.mkResult rt p v c r s).confidence ∧
      (VoiceAnalysis.mkResult rt p v c r s).confidence ≤ 95) ∧
    (7/20 < r → r ≤ 7/10 →
      (FaceScan.analyzeHealthResult r s).status = HealthStatus.needsConsultation ∧
      (VoiceAnalysis.mkResult rt p v c r s).status = HealthStatus.needsConsultation ∧
      60 ≤ (FaceScan.analyzeHealthResult r s).confidence ∧
      (FaceScan.analyzeHealthResult r s).confidence ≤ 75 ∧
      60 ≤ (VoiceAnalysis.mkResult rt p v c r s).confidence ∧
      (VoiceAnalysis.mkResult rt p v c r s).confidence ≤ 75) ∧
    (r ≤ 7/20 →
      (FaceScan.analyzeHealthResult r s).status = HealthStatus.highRisk ∧
      (VoiceAnalysis.mkResult rt p v c r s).status = HealthStatus.highRisk ∧
      55 ≤ (FaceScan.analyzeHealthResult r s).confidence ∧
      (FaceScan.analyzeHealthResult r s).confidence ≤ 65 ∧
      55 ≤ (VoiceAnalysis.mkResult rt p v c r s).confidence ∧
      (VoiceAnalysis.mkResult rt p v c r s).confidence ≤ 65) ∧
    (FaceScan.analyzeHealthResult (7/10) s).status = HealthStatus.needsConsultation ∧
    (VoiceAnalysis.mkResult rt p v c (7/10) s).status = HealthStatus.needsConsultation ∧
    (FaceScan.analyzeHealthResult (7/20) s).status = HealthStatus.highRisk ∧
    (VoiceAnalysis.mkResult rt p v c (7/20) s).status = HealthStatus.highRisk := by
  refine ⟨fun hr => ?_, fun hr2 hr1 => ?_, fun hr => ?_, ?_, ?_, ?_, ?_⟩
  · rw [analyzeHealthResult_healthy s hr, mkResult_healthy rt p v c s hr]
    exact ⟨rfl, rfl, (conf_healthy_mem s hs0 hs1).1, (conf_healthy_mem s hs0 hs1).2,
      (conf_healthy_mem s hs0 hs1).1, (conf_healthy_mem s hs0 hs1).2⟩
  · rw [analyzeHealthResult_consult s hr1 hr2, mkResult_consult rt p v c s hr1 hr2]
    exact ⟨rfl, rfl, (conf_consult_mem s hs0 hs1).1, (conf_consult_mem s hs0 hs1).2,
      (conf_consult_mem s hs0 hs1).1, (conf_consult_mem s hs0 hs1).2⟩
  · rw [analyzeHealthResult_risk s hr, mkResult_risk rt p v c s hr]
    exact ⟨rfl, rfl, (conf_risk_mem s hs0 hs1).1, (conf_risk_mem s hs0 hs1).2,
      (conf_risk_mem s hs0 hs1).1, (conf_risk_mem s hs0 hs1).2⟩
  · rw [analyzeHealthResult_consult s (le_refl _) (by norm_num)]
  · rw [mkResult_consult rt p v c s (le_refl _) (by norm_num)]
  · rw [analyzeHealthResult_risk s (le_refl _)]
  · rw [mkResult_risk rt p v c s (le_refl _)]

/-- Witness for C1 at r = 9/10, s = 1/2: the healthy band applies. -/
theorem classifier_bands_witness :
    (FaceScan.analyzeHealthResult (9/10) (1/2)).status = HealthStatus.healthy :=
  ((classifier_bands (9/10) (1/2) 0 0 0 0 (by norm_num) (by norm_num)).1 (by norm_num)).1

/-- Claim C2: every analyzeVoice trace performs the fixed 2000 ms delay
before any output event, and when the recorded duration is under 3
seconds the trace is exactly the failure sequence for every random
draw: the recording-too-short error, analyzing cleared, the elapsed
counter reset to 0, and no result published. -/
theorem analyzeVoice_short_recording (rt : ℕ) (p v c r s : ℚ) :
    (VoiceAnalysis.analyzeVoice rt p v c r s).take 3 =
      [VoiceAnalysis.VoiceEvent.setAnalyzing true, VoiceAnalysis.VoiceEvent.clearError,
       VoiceAnalysis.VoiceEvent.delay 2000] ∧
    (rt < 3 →
      VoiceAnalysis.analyzeVoice rt p v c r s =
        [VoiceAnalysis.VoiceEvent.setAnalyzing true, VoiceAnalysis.VoiceEvent.clearError,
         VoiceAnalysis.VoiceEvent.delay 2000,
         VoiceAnalysis.VoiceEvent.setError "Recording too short. Please speak for at least 3 seconds.",
         VoiceAnalysis.VoiceEvent.setAnalyzing false, VoiceAnalysis.VoiceEvent.setRecordingTime 0] ∧
      ∀ res, VoiceAnalysis.VoiceEvent.publish res ∉ VoiceAnalysis.analyzeVoice rt p v c r s) := by
  unfold VoiceAnalysis.analyzeVoice
  refine ⟨rfl, fun h => ?_⟩
  rw [if_pos h]
  exact ⟨rfl, fun res => by simp⟩

/-- Witness for C2 at a 2-second recording. -/
theorem analyzeVoice_short_recording_witness :
    VoiceAnalysis.analyzeVoice 2 0 0 0 (1/2) (1/2) =
      [VoiceAnalysis.VoiceEvent.setAnalyzing true, VoiceAnalysis.VoiceEvent.clearError,
       VoiceAnalysis.VoiceEvent.delay 2000,
       VoiceAnalysis.VoiceEvent.setError "Recording too short. Please speak for at least 3 seconds.",
       VoiceAnalysis.VoiceEvent.setAnalyzing false, VoiceAnalysis.VoiceEvent.setRecordingTime 0] :=
  ((analyzeVoice_short_recording 2 0 0 0 (1/2) (1/2)).2 (by norm_num)).1

/-- Claim C3: on both face entry points, a detector run returning zero
regions sets the no-face error, never invokes the analysis stage,
leaves the result untouched, and leaves the camera session state
(active flag, stream, video source) exactly as it was. -/
theorem no_face_detected_fails (fs : FaceScan.FaceState) (r s : ℚ) :
    (FaceScan.captureAndAnalyze true true true true (some []) r s fs).analyzeInvoked = false ∧
    (FaceScan.captureAndAnalyze true true true true (some []) r s fs).state.error =
      some "No face detected. Please ensure your face is clearly visible." ∧
    (FaceScan.captureAndAnalyze true true true true (some []) r s fs).state.analysisResult =
      fs.analysisResult ∧
    (FaceScan.captureAndAnalyze true true true true (some []) r s fs).state.isCameraActive =
      fs.isCameraActive ∧
    (FaceScan.captureAndAnalyze true true true true (some []) r s fs).state.streamActive =
      fs.streamActive ∧
    (FaceScan.captureAndAnalyze true true true true (some []) r s fs).state.videoSrc =
      fs.videoSrc ∧
    (FaceScan.handleFileUpload true true true (some []) r s fs).analyzeInvoked = false ∧
    (FaceScan.handleFileUpload true true true (some []) r s fs).state.error =
      some "No face detected in the image. Please upload a clear face photo." ∧
    (FaceScan.handleFileUpload true true true (some []) r s fs).state.analysisResult =
      fs.analysisResult ∧
    (FaceScan.handleFileUpload true true true (some []) r s fs).state.isCameraActive =
      fs.isCameraActive := by
  unfold FaceScan.captureAndAnalyze FaceScan.handleFileUpload
  simp

/-- Claim C4 counterexample: at r = 9/10 the face-mode classifier
yields status healthy, and the fixed recommendation catalog it carries
has three lines, not four to five. -/
theorem catalog_counterexample :
    (FaceScan.analyzeHealthResult (9/10) (1/2)).status = HealthStatus.healthy ∧
    (FaceScan.analyzeHealthResult (9/10) (1/2)).recommendations.length = 3 := by
  rw [analyzeHealthResult_healthy (1/2) (by norm_num)]
  exact ⟨rfl, rfl⟩

/-- Claim C4 as amended: for every status and mode, the produced result
carries a fixed ordered detail list and a fixed ordered recommendation
list determined solely by the status and mode (so they are reproduced
exactly on every analysis yielding that status in that mode); detail
lists have four to five lines, and recommendation lists three to five
lines. -/
theorem catalog_fixed (r s r2 s2 : ℚ) (rt : ℕ) (p v c : ℚ) :
    (FaceScan.analyzeHealthResult r s).details =
      FaceScan.detailsFor (FaceScan.analyzeHealthResult r s).status ∧
    (FaceScan.analyzeHealthResult r s).recommendations =
      FaceScan.recommendationsFor (FaceScan.analyzeHealthResult r s).status ∧
    (VoiceAnalysis.mkResult rt p v c r2 s2).details =
      VoiceAnalysis.detailsFor (VoiceAnalysis.mkResult rt p v c r2 s2).status ∧
    (VoiceAnalysis.mkResult rt p v c r2 s2).recommendations =
      VoiceAnalysis.recommendationsFor (VoiceAnalysis.mkResult rt p v c r2 s2).status ∧
    (∀ st : HealthStatus,
      4 ≤ (FaceScan.detailsFor st).length ∧ (FaceScan.detailsFor st).length ≤ 5 ∧
      3 ≤ (FaceScan.recommendationsFor st).length ∧ (FaceScan.recommendationsFor st).length ≤ 5 ∧
      4 ≤ (VoiceAnalysis.detailsFor st).length ∧ (VoiceAnalysis.detailsFor st).length ≤ 5 ∧
      3 ≤ (VoiceAnalysis.recommendationsFor st).length ∧
      (VoiceAnalysis.recommendationsFor st).length ≤ 5) := by
  refine ⟨?_, ?_, ?_, ?_, ?_⟩
  · unfold FaceScan.analyzeHealthResult
    split_ifs <;> rfl
  · unfold FaceScan.analyzeHealthResult
    split_ifs <;> rfl
  · unfold VoiceAnalysis.mkResult
    split_ifs <;> rfl
  · unfold VoiceAnalysis.mkResult
    split_ifs <;> rfl
  · intro st
    cases st <;> refine ⟨?_, ?_, ?_, ?_, ?_, ?_, ?_, ?_⟩ <;> decide

/-- Claim C5: while the analyser is attached and recording is active,
each tick of the monitor loop publishes the mean of the frequency
buffer mapped linearly onto [0,100] and reschedules itself; once
recording has stopped the loop publishes nothing and does not run, and
after component teardown no animation frame callback remains. -/
theorem monitor_loop_spec (st : VoiceAnalysis.VoiceState) (frame : List ℕ)
    (frames : List (List ℕ)) :
    (st.analyserPresent = true → st.isRecording = true →
      VoiceAnalysis.updateLevel frame st =
        ({ st with
            audioLevel := min 100 ((frame.sum : ℚ) / frame.length / 255 * 100),
            animationFrameActive := true }, true)) ∧
    (st.isRecording = false → VoiceAnalysis.monitorRun frames st = (st, [])) ∧
    (VoiceAnalysis.teardown st).animationFrameActive = false := by
  refine ⟨fun h1 h2 => ?_, fun h => ?_, ?_⟩
  · simp [VoiceAnalysis.updateLevel, h1, h2]
  · cases frames with
    | nil => rfl
    | cons f fs => simp [VoiceAnalysis.monitorRun, VoiceAnalysis.updateLevel, h]
  · unfold VoiceAnalysis.teardown VoiceAnalysis.stopRecording
    split_ifs <;> rfl

/-- Witness for C5: a concrete recording tick publishes and
reschedules, and teardown leaves no animation frame pending. -/
theorem monitor_loop_spec_witness :
    (VoiceAnalysis.updateLevel [510]
      { VoiceAnalysis.initialState with isRecording := true, analyserPresent := true }).2 = true ∧
    (VoiceAnalysis.teardown VoiceAnalysis.initialState).animationFrameActive = false := by
  constructor
  · rw [(monitor_loop_spec _ [510] []).1 rfl rfl]
  · exact (monitor_loop_spec VoiceAnalysis.initialState [] []).2.2

/-- Claim C6: a voice analysis of a recording of at least 3 seconds
publishes exactly one result, whose metrics satisfy pitch in [100,200],
volume in [50,90], clarity in [70,95], and whose duration equals the
recorded whole seconds. -/
theorem voice_metrics_ranges (rt : ℕ) (p v c r s : ℚ) (hrt : 3 ≤ rt)
    (hp0 : 0 ≤ p) (hp1 : p < 1) (hv0 : 0 ≤ v) (hv1 : v < 1)
    (hc0 : 0 ≤ c) (hc1 : c < 1) :
    VoiceAnalysis.publishedResults (VoiceAnalysis.analyzeVoice rt p v c r s) =
      [VoiceAnalysis.mkResult rt p v c r s] ∧
    ∀ res ∈ VoiceAnalysis.publishedResults (VoiceAnalysis.analyzeVoice rt p v c r s),
      res.metrics.duration = rt ∧
      100 ≤ res.metrics.pitch ∧ res.metrics.pitch ≤ 200 ∧
      50 ≤ res.metrics.volume ∧ res.metrics.volume ≤ 90 ∧
      70 ≤ res.metrics.clarity ∧ res.metrics.clarity ≤ 95 := by
  have hlist : VoiceAnalysis.publishedResults (VoiceAnalysis.analyzeVoice rt p v c r s) =
      [VoiceAnalysis.mkResult rt p v c r s] := by
    unfold VoiceAnalysis.analyzeVoice VoiceAnalysis.publishedResults
    rw [if_neg (by omega)]
    rfl
  refine ⟨hlist, fun res hres => ?_⟩
  rw [hlist] at hres
  simp only [List.mem_singleton] at hres
  subst hres
  rw [mkResult_metrics]
  exact ⟨rfl, (pitch_mem p hp0 hp1).1, (pitch_mem p hp0 hp1).2,
    (volume_mem v hv0 hv1).1, (volume_mem v hv0 hv1).2,
    (clarity_mem c hc0 hc1).1, (clarity_mem c hc0 hc1).2⟩

/-- Witness for C6 at a 10-second recording with all draws 1/2. -/
theorem voice_metrics_ranges_witness :
    VoiceAnalysis.publishedResults (VoiceAnalysis.analyzeVoice 10 (1/2) (1/2) (1/2) (1/2) (1/2)) =
      [VoiceAnalysis.mkResult 10 (1/2) (1/2) (1/2) (1/2) (1/2)] :=
  (voice_metrics_ranges 10 (1/2) (1/2) (1/2) (1/2) (1/2) (by norm_num) (by norm_num)
    (by norm_num) (by norm_num) (by norm_num) (by norm_num) (by norm_num)).1

/-- Claim C7: a face capture whose detector run returns at least one
region draws every bounding box, records the analysis result, and then
stops the camera session, so the session does not outlive a successful
capture. -/
theorem capture_success_stops_camera (fs : FaceScan.FaceState) (preds : List Prediction)
    (r s : ℚ) (h : preds ≠ []) :
    (FaceScan.captureAndAnalyze true true true true (some preds) r s fs).analyzeInvoked = true ∧
    (FaceScan.captureAndAnalyze true true true true (some preds) r s fs).state.drawnBoxes =
      fs.drawnBoxes ++ preds.map boxOf ∧
    (FaceScan.captureAndAnalyze true true true true (some preds) r s fs).state.analysisResult =
      some (FaceScan.analyzeHealthResult r s) ∧
    (FaceScan.captureAndAnalyze true true true true (some preds) r s fs).state.isCameraActive =
      false ∧
    (FaceScan.captureAndAnalyze true true true true (some preds) r s fs).state.streamActive =
      false ∧
    (FaceScan.captureAndAnalyze true true true true (some preds) r s fs).state.videoSrc =
      false := by
  have hne : preds.isEmpty = false := by
    cases preds with
    | nil => exact absurd rfl h
    | cons a l => rfl
  unfold FaceScan.captureAndAnalyze FaceScan.stopCamera
  simp [hne]

/-- Witness for C7 on a one-region detection. -/
theorem capture_success_stops_camera_witness :
    (FaceScan.captureAndAnalyze true true true true
      (some [{ topLeft := (0, 0), bottomRight := (1, 1), probability := some (19/20) }])
      (9/10) (1/2) FaceScan.initialState).state.isCameraActive = false :=
  (capture_success_stops_camera FaceScan.initialState
    [{ topLeft := (0, 0), bottomRight := (1, 1), probability := some (19/20) }]
    (9/10) (1/2) (by simp)).2.2.2.1

/-- Claim C8: stopping when no session of that kind is active changes
no observable state in either mode, and stop is idempotent in both
modes: a second stop after a first leaves the state unchanged. -/
theorem stop_idempotent (fs : FaceScan.FaceState) (vs : VoiceAnalysis.VoiceState) :
    (fs.streamActive = false → fs.videoSrc = false → fs.isCameraActive = false →
      FaceScan.stopCamera fs = fs) ∧
    (vs.isRecording = false → VoiceAnalysis.stopRecording vs = vs) ∧
    FaceScan.stopCamera (FaceScan.stopCamera fs) = FaceScan.stopCamera fs ∧
    VoiceAnalysis.stopRecording (VoiceAnalysis.stopRecording vs) =
      VoiceAnalysis.stopRecording vs := by
  refine ⟨fun h1 h2 h3 => ?_, fun h => ?_, rfl, ?_⟩
  · cases fs
    simp_all [FaceScan.stopCamera]
  · simp [VoiceAnalysis.stopRecording, h]
  · by_cases hg : vs.mediaRecorderPresent && vs.isRecording
    · simp [VoiceAnalysis.stopRecording, hg]
    · simp [VoiceAnalysis.stopRecording, hg]

/-- Witness for C8: stopping the initial (inactive) states changes
nothing. -/
theorem stop_idempotent_witness :
    FaceScan.stopCamera FaceScan.initialState = FaceScan.initialState ∧
    VoiceAnalysis.stopRecording VoiceAnalysis.initialState = VoiceAnalysis.initialState :=
  ⟨(stop_idempotent FaceScan.initialState VoiceAnalysis.initialState).1 rfl rfl rfl,
   (stop_idempotent FaceScan.initialState VoiceAnalysis.initialState).2.1 rfl⟩

/-- Claim C9: from every state, reset restores the result, the error,
and every transient value (elapsed recording time, live audio level,
drawn capture artifacts) to its initial value; the canvas ref is
mounted whenever the face component renders, so it is passed as
present. -/
theorem reset_clears_state (fs : FaceScan.FaceState) (vs : VoiceAnalysis.VoiceState) :
    (FaceScan.resetAnalysis true fs).analysisResult = FaceScan.initialState.analysisResult ∧
    (FaceScan.resetAnalysis true fs).error = FaceScan.initialState.error ∧
    (FaceScan.resetAnalysis true fs).drawnBoxes = FaceScan.initialState.drawnBoxes ∧
    (VoiceAnalysis.resetAnalysis vs).analysisResult =
      VoiceAnalysis.initialState.analysisResult ∧
    (VoiceAnalysis.resetAnalysis vs).error = VoiceAnalysis.initialState.error ∧
    (VoiceAnalysis.resetAnalysis vs).recordingTime =
      VoiceAnalysis.initialState.recordingTime ∧
    (VoiceAnalysis.resetAnalysis vs).audioLevel = VoiceAnalysis.initialState.audioLevel :=
  ⟨rfl, rfl, rfl, rfl, rfl, rfl, rfl⟩

/-- Claim C10: the detector-confidence proxy of analyzeHealth uses the
JavaScript or-default, so a first detection whose probability field is
the falsy value 0 yields the default proxy 0.95. -/
theorem detector_confidence_zero (preds : List Prediction) (pr : Prediction)
    (hhead : preds.head? = some pr) (hprob : pr.probability = some 0) :
    FaceScan.detectorConfidence preds = 19/20 := by
  unfold FaceScan.detectorConfidence
  rw [hhead]
  simp [hprob]

/-- Witness for C10 on a one-region list with probability 0. -/
theorem detector_confidence_zero_witness :
    FaceScan.detectorConfidence
      [{ topLeft := (0, 0), bottomRight := (1, 1), probability := some 0 }] = 19/20 :=
  detector_confidence_zero _ _ rfl rfl
